import Mathlib

/-!
Shallow embedding of `src/app/src/main.rs` (gossip-glomers node): the tagged
message schema (`MessageBody`, `Message`), the mutable node state (`Node`),
and the request dispatcher `Node.step`.  Machine integers (`u32`) are modelled
as `Nat`; the counter never approaches the width in any claim.  The stdout
writes of the Rust code are modelled as the `Option Message` component of the
result of `step`; the externally minted ULID of the Generate arm is passed in
as the parameter `genId` (it is an opaque external capability).
-/

/-- The closed, tag-discriminated union of message bodies, constructor for
constructor in the declaration order of the Rust `enum MessageBody`.
`Broadcast`'s payload field is internally named `msg` (serde renames it to
`message` on the wire). -/
inductive MessageBody where
  | Init (msg_id : Nat) (node_id : String) (node_ids : List String)
  | InitOk (msg_id : Nat) (in_reply_to : Nat)
  | EchoOk (msg_id : Nat) (in_reply_to : Nat) (echo : String)
  | Echo (msg_id : Nat) (echo : String)
  | Generate (msg_id : Nat)
  | GenerateOk (msg_id : Nat) (in_reply_to : Nat) (id : String)
  | Broadcast (msg_id : Nat) (msg : Nat)
  | BroadcastOk (msg_id : Nat) (in_reply_to : Nat)
  | Read (msg_id : Nat)
  | ReadOk (msg_id : Nat) (in_reply_to : Nat) (messages : List Nat)
  | Topology (msg_id : Nat) (topology : List (String × List String))
  | TopologyOk (msg_id : Nat) (in_reply_to : Nat)
  deriving DecidableEq, Repr

/-- The message envelope: `struct Message { src, dest, body }`. -/
structure Message where
  src : String
  dest : String
  body : MessageBody
  deriving DecidableEq, Repr

/-- The mutable node state: `struct Node { id, neighbors, next_msg_id, messages }`. -/
structure Node where
  id : String
  neighbors : List String
  next_msg_id : Option Nat
  messages : List Nat
  deriving DecidableEq, Repr

/-- The node state built in `main` before the input loop starts. -/
def initialNode : Node :=
  { id := "", neighbors := [], next_msg_id := none, messages := [] }

/-- `Node::step`: dispatch on the body of the inbound message, mutate the
state, and emit at most one reply.  The Rust `self.next_msg_id.unwrap_or(0)`
is `Option.getD 0`; the `HashMap::get` of the Topology arm is `List.lookup`
on the association-list model of the topology map. -/
def Node.step (node : Node) (genId : String) (message : Message) :
    Node × Option Message :=
  match message.body with
  | .Init msg_id node_id node_ids =>
      let node1 : Node :=
        { node with
            next_msg_id := some (msg_id + 1)
            id := node_id
            neighbors := node_ids }
      let reply : Message :=
        { src := node1.id, dest := message.src
          body := .InitOk msg_id msg_id }
      ({ node1 with next_msg_id := some (node1.next_msg_id.getD 0 + 1) },
       some reply)
  | .InitOk _ _ => (node, none)
  | .Echo msg_id echo =>
      let reply : Message :=
        { src := node.id, dest := message.src
          body := .EchoOk msg_id msg_id echo }
      ({ node with next_msg_id := some (node.next_msg_id.getD 0 + 1) },
       some reply)
  | .EchoOk _ _ _ => (node, none)
  | .Generate msg_id =>
      let reply : Message :=
        { src := node.id, dest := message.src
          body := .GenerateOk (node.next_msg_id.getD 0) msg_id genId }
      ({ node with next_msg_id := some (node.next_msg_id.getD 0 + 1) },
       some reply)
  | .GenerateOk _ _ _ => (node, none)
  | .Broadcast msg_id msg =>
      let node1 : Node := { node with messages := node.messages ++ [msg] }
      let reply : Message :=
        { src := node1.id, dest := message.src
          body := .BroadcastOk (node1.next_msg_id.getD 0) msg_id }
      ({ node1 with next_msg_id := some (node1.next_msg_id.getD 0 + 1) },
       some reply)
  | .BroadcastOk _ _ => (node, none)
  | .Read msg_id =>
      let reply : Message :=
        { src := node.id, dest := message.src
          body := .ReadOk (node.next_msg_id.getD 0) msg_id node.messages }
      ({ node with next_msg_id := some (node.next_msg_id.getD 0 + 1) },
       some reply)
  | .ReadOk _ _ _ => (node, none)
  | .Topology msg_id topology =>
      let node1 : Node :=
        { node with
            neighbors :=
              match List.lookup node.id topology with
              | some neighbors => neighbors
              | none => [] }
      let reply : Message :=
        { src := node1.id, dest := message.src
          body := .TopologyOk (node1.next_msg_id.getD 0) msg_id }
      ({ node1 with next_msg_id := some (node1.next_msg_id.getD 0 + 1) },
       some reply)
  | .TopologyOk _ _ => (node, none)

/-- The input loop of `main`, restricted to a finite list of frames: feed the
messages to `step` one at a time and collect the emitted replies in order. -/
def Node.run (node : Node) (genId : String) (msgs : List Message) :
    Node × List Message :=
  match msgs with
  | [] => (node, [])
  | m :: rest =>
      let out := node.step genId m
      let outRest := out.1.run genId rest
      (outRest.1, out.2.toList ++ outRest.2)

/-- The `msg_id` field that every variant of the Rust enum carries. -/
def MessageBody.msgId : MessageBody → Nat
  | .Init m _ _ => m
  | .InitOk m _ => m
  | .EchoOk m _ _ => m
  | .Echo m _ => m
  | .Generate m => m
  | .GenerateOk m _ _ => m
  | .Broadcast m _ => m
  | .BroadcastOk m _ => m
  | .Read m => m
  | .ReadOk m _ _ => m
  | .Topology m _ => m
  | .TopologyOk m _ => m

/-- The request variants whose handlers draw the reply's own `msg_id` from
the node's counter: Generate, Broadcast, Read and Topology. -/
def MessageBody.isCounterRequest : MessageBody → Bool
  | .Generate _ => true
  | .Broadcast _ _ => true
  | .Read _ => true
  | .Topology _ _ => true
  | _ => false

/-- The reply-only (`*Ok`-suffixed) variants. -/
def MessageBody.isReply : MessageBody → Bool
  | .InitOk _ _ => true
  | .EchoOk _ _ _ => true
  | .GenerateOk _ _ _ => true
  | .BroadcastOk _ _ => true
  | .ReadOk _ _ _ => true
  | .TopologyOk _ _ => true
  | _ => false

/-- The Init request variant. -/
def MessageBody.isInitRequest : MessageBody → Bool
  | .Init _ _ _ => true
  | _ => false

/-- The request variants other than Init that produce a reply: Echo,
Generate, Broadcast, Read and Topology. -/
def MessageBody.isNonInitRequest : MessageBody → Bool
  | .Echo _ _ => true
  | .Generate _ => true
  | .Broadcast _ _ => true
  | .Read _ => true
  | .Topology _ _ => true
  | _ => false

theorem step_counter_parts (node : Node) (g : String) (m : Message)
    (h : m.body.isCounterRequest = true) :
    ∃ r, (node.step g m).2 = some r ∧
      r.body.msgId = node.next_msg_id.getD 0 ∧
      (node.step g m).1.next_msg_id = some (node.next_msg_id.getD 0 + 1) := by
  cases m with
  | mk src dest body =>
      cases body <;>
        simp only [MessageBody.isCounterRequest, Bool.false_eq_true] at h <;>
        exact ⟨_, rfl, rfl, rfl⟩

theorem run_counter_requests (node : Node) (g : String) (msgs : List Message)
    (h : ∀ m ∈ msgs, m.body.isCounterRequest = true) :
    (node.run g msgs).2.map (fun r => r.body.msgId) =
      List.range' (node.next_msg_id.getD 0) msgs.length ∧
    (node.run g msgs).1.next_msg_id.getD 0 =
      node.next_msg_id.getD 0 + msgs.length := by
  induction msgs generalizing node with
  | nil => simp [Node.run]
  | cons m rest ih =>
      obtain ⟨r, hr, hrid, hc⟩ :=
        step_counter_parts node g m (h m (by simp))
      obtain ⟨ih1, ih2⟩ :=
        ih (node.step g m).1 (fun x hx => h x (by simp [hx]))
      rw [hc] at ih1 ih2
      simp only [Option.getD_some] at ih1 ih2
      constructor
      · simp [Node.run, hr, ih1, hrid, List.range'_succ]
      · simp [Node.run, ih2]
        omega


/-- C1 (amended): for every request variant other than Init that produces a
reply, the counter is incremented by exactly one after the reply; the reply's
own `msg_id` equals the current counter (`getD 0`) for Generate, Broadcast,
Read and Topology, but for Echo it equals the request's inbound `msg_id`
instead of the counter. -/
theorem non_init_reply_msg_id (node : Node) (g : String) (m : Message)
    (h : m.body.isNonInitRequest = true) :
    ∃ r, (node.step g m).2 = some r ∧
      (node.step g m).1.next_msg_id = some (node.next_msg_id.getD 0 + 1) ∧
      r.body.msgId =
        (match m.body with
         | .Echo k _ => k
         | _ => node.next_msg_id.getD 0) := by
  cases m with
  | mk src dest body =>
      cases body <;>
        simp only [MessageBody.isNonInitRequest, Bool.false_eq_true] at h <;>
        exact ⟨_, rfl, rfl, rfl⟩

/-- C1 witness: the amended rule at a concrete Generate request against the
fresh node. -/
theorem non_init_reply_msg_id_witness :
    ∃ r, (initialNode.step "u0" ⟨"c1", "n0", .Generate 7⟩).2 = some r ∧
      (initialNode.step "u0" ⟨"c1", "n0", .Generate 7⟩).1.next_msg_id =
        some (initialNode.next_msg_id.getD 0 + 1) ∧
      r.body.msgId =
        (match (⟨"c1", "n0", .Generate 7⟩ : Message).body with
         | .Echo k _ => k
         | _ => initialNode.next_msg_id.getD 0) :=
  non_init_reply_msg_id initialNode "u0" ⟨"c1", "n0", .Generate 7⟩ rfl

/-- C1 counterexample: the claim as stated requires the Echo reply's own
`msg_id` to equal the counter value; at the fresh node (counter unset, hence
0) an Echo request with `msg_id = 5` is answered with reply `msg_id = 5`,
not 0. -/
theorem echo_reply_msg_id_not_counter :
    ((initialNode.step "u0" ⟨"c1", "n0", .Echo 5 "hello"⟩).2.map
        (fun r => r.body.msgId)) = some 5 ∧
      initialNode.next_msg_id.getD 0 = 0 ∧ (5 : Nat) ≠ 0 :=
  ⟨rfl, rfl, by decide⟩

/-- C2 (amended): after an Init with `msg_id = i`, a sequence of requests
drawn from Generate, Broadcast, Read and Topology is answered with replies
whose own `msg_id` values are `i + 2, i + 3, ...` — strictly increasing by
exactly 1 but starting from `i + 2`, not `i + 1`: Init leaves the counter at
`i + 2`, and Echo is excluded because its reply reuses the inbound id. -/
theorem post_init_reply_ids (node : Node) (g src dest : String) (i : Nat)
    (nid : String) (nids : List String) (msgs : List Message)
    (h : ∀ m ∈ msgs, m.body.isCounterRequest = true) :
    (((node.step g ⟨src, dest, .Init i nid nids⟩).1.run g msgs).2.map
        (fun r => r.body.msgId)) =
      List.range' (i + 2) msgs.length := by
  have h2 := (run_counter_requests
    (node.step g ⟨src, dest, .Init i nid nids⟩).1 g msgs h).1
  simpa [Node.step] using h2

/-- C2 witness: two Generate requests after an Init with `msg_id = 1` are
answered with reply ids 3 and 4. -/
theorem post_init_reply_ids_witness :
    (((initialNode.step "u0" ⟨"c0", "n1", .Init 1 "n1" ["n1"]⟩).1.run "u0"
        [⟨"c0", "n1", .Generate 7⟩, ⟨"c0", "n1", .Generate 8⟩]).2.map
        (fun r => r.body.msgId)) =
      List.range' (1 + 2) 2 :=
  post_init_reply_ids initialNode "u0" "c0" "n1" 1 "n1" ["n1"]
    [⟨"c0", "n1", .Generate 7⟩, ⟨"c0", "n1", .Generate 8⟩]
    (by intro m hm; fin_cases hm <;> rfl)

/-- C2 counterexample: the claim as stated says the first reply id after
Init is `init_msg_id + 1`; after an Init with `msg_id = 1` the first
Generate is answered with reply id 3, not 2. -/
theorem post_init_first_reply_id_not_succ :
    (((initialNode.step "u0" ⟨"c0", "n1", .Init 1 "n1" ["n1"]⟩).1.step "u0"
        ⟨"c0", "n1", .Generate 7⟩).2.map (fun r => r.body.msgId)) = some 3 ∧
      (3 : Nat) ≠ 1 + 1 :=
  ⟨rfl, by decide⟩

/-- C3: handling Init overwrites `id` with `node_id` and `neighbors` with
`node_ids`, sets the counter to `msg_id + 1` before the reply and increments
it once more after sending (ending at `msg_id + 1 + 1`), and replies InitOk
with both `msg_id` and `in_reply_to` equal to the inbound `msg_id`; the
reply's `src` being the fresh `node_id` shows the identity was assigned
before the reply was built. -/
theorem init_handler_spec (node : Node) (g src dest : String) (i : Nat)
    (nid : String) (nids : List String) :
    node.step g ⟨src, dest, .Init i nid nids⟩ =
      (⟨nid, nids, some (i + 1 + 1), node.messages⟩,
       some ⟨nid, src, .InitOk i i⟩) := rfl

/-- C4: the concrete Init request with `node_id = "n1"`,
`node_ids = ["n1","n2"]`, `msg_id = 1` is answered with
`init_ok, msg_id = 1, in_reply_to = 1`, and leaves `identity = "n1"`,
`neighbors = ["n1","n2"]`. -/
theorem init_concrete_example :
    initialNode.step "u0" ⟨"c1", "n1", .Init 1 "n1" ["n1", "n2"]⟩ =
      (⟨"n1", ["n1", "n2"], some 3, []⟩,
       some ⟨"n1", "c1", .InitOk 1 1⟩) := rfl

/-- C5: an Echo request with `msg_id = k` and payload `s` produces exactly
one reply, an EchoOk carrying `echo = s` and `in_reply_to = k`, and the only
state field that changes is `next_msg_id`. -/
theorem echo_handler_spec (node : Node) (g src dest s : String) (k : Nat) :
    node.step g ⟨src, dest, .Echo k s⟩ =
      ({ node with next_msg_id := some (node.next_msg_id.getD 0 + 1) },
       some ⟨node.id, src, .EchoOk k k s⟩) := rfl

theorem run_broadcasts_messages (node : Node) (g src dest : String)
    (reqs : List (Nat × Nat)) :
    (node.run g (reqs.map
        (fun p => ⟨src, dest, .Broadcast p.1 p.2⟩))).1.messages =
      node.messages ++ reqs.map Prod.snd := by
  induction reqs generalizing node with
  | nil => simp [Node.run]
  | cons p rest ih => simp [Node.run, Node.step, ih]

/-- C6: after Broadcast requests carrying the values `reqs.map Prod.snd`
(duplicates allowed, inbound msg ids `reqs.map Prod.fst` arbitrary) against a
node whose broadcast accumulator is empty, a Read request is answered with a
ReadOk whose `messages` field equals — as a multiset — exactly the broadcast
values, and the Read itself leaves the accumulator unchanged. -/
theorem broadcast_read_consistency (node after : Node) (g src dest : String)
    (reqs : List (Nat × Nat)) (k : Nat) (h : node.messages = [])
    (hafter : after = (node.run g (reqs.map
        (fun p => ⟨src, dest, .Broadcast p.1 p.2⟩))).1) :
    ∃ r ms,
      (after.step g ⟨src, dest, .Read k⟩).2 = some r ∧
      r.body = .ReadOk (after.next_msg_id.getD 0) k ms ∧
      Multiset.ofList ms = Multiset.ofList (reqs.map Prod.snd) ∧
      (after.step g ⟨src, dest, .Read k⟩).1.messages = after.messages := by
  subst hafter
  refine ⟨_, _, rfl, rfl, ?_, rfl⟩
  rw [run_broadcasts_messages, h]
  simp

/-- C6 witness: broadcasting 5, 7, 5 into the fresh node leaves the state
`id = "", neighbors = [], counter = some 3, messages = [5, 7, 5]`, and a Read
then yields a ReadOk whose messages are, as a multiset, exactly {5, 7, 5}. -/
theorem broadcast_read_consistency_witness :
    ∃ r ms,
      ((⟨"", [], some 3, [5, 7, 5]⟩ : Node).step "u0"
          ⟨"c0", "n0", .Read 9⟩).2 = some r ∧
      r.body = .ReadOk ((⟨"", [], some 3, [5, 7, 5]⟩ : Node).next_msg_id.getD 0)
          9 ms ∧
      Multiset.ofList ms =
        Multiset.ofList ([((1 : Nat), (5 : Nat)), (2, 7), (3, 5)].map
          Prod.snd) ∧
      ((⟨"", [], some 3, [5, 7, 5]⟩ : Node).step "u0"
          ⟨"c0", "n0", .Read 9⟩).1.messages =
        (⟨"", [], some 3, [5, 7, 5]⟩ : Node).messages :=
  broadcast_read_consistency initialNode ⟨"", [], some 3, [5, 7, 5]⟩
    "u0" "c0" "n0" [(1, 5), (2, 7), (3, 5)] 9 rfl rfl

/-- C7: a Topology request replaces `neighbors` wholesale by the entry for
the node's own identity in the mapping, or by the empty list when the
mapping has no such entry, and in both cases a TopologyOk reply is emitted
(no error path exists). -/
theorem topology_handler_spec (node : Node) (g src dest : String) (k : Nat)
    (topo : List (String × List String)) :
    node.step g ⟨src, dest, .Topology k topo⟩ =
      ({ node with
           neighbors := (List.lookup node.id topo).getD []
           next_msg_id := some (node.next_msg_id.getD 0 + 1) },
       some ⟨node.id, src, .TopologyOk (node.next_msg_id.getD 0) k⟩) := by
  cases hl : List.lookup node.id topo <;> simp [Node.step, hl]

/-- C8: every reply-only (`*Ok`) variant received as input produces no reply
and leaves the whole node state — identity, neighbors, counter and broadcast
accumulator — unchanged. -/
theorem reply_variants_are_no_ops (node : Node) (g : String) (m : Message)
    (h : m.body.isReply = true) : node.step g m = (node, none) := by
  cases m with
  | mk src dest body =>
      cases body <;>
        simp only [MessageBody.isReply, Bool.false_eq_true] at h <;> rfl

/-- C8 witness: an inbound InitOk against the fresh node emits nothing and
changes nothing. -/
theorem reply_variants_are_no_ops_witness :
    initialNode.step "u0" ⟨"c1", "n0", .InitOk 3 2⟩ = (initialNode, none) :=
  reply_variants_are_no_ops initialNode "u0" ⟨"c1", "n0", .InitOk 3 2⟩ rfl

/-- C10: every reply emitted by `step` carries `src` equal to the node's
identity at the moment the reply is built (which equals the post-step
identity: only Init changes it, and it does so before building the reply)
and `dest` equal to the request's `src`; the node starts with the empty
string as identity, and no request other than Init changes it, so replies
emitted before any Init carry `src = ""`. -/
theorem reply_envelope_src_dest :
    (∀ (node : Node) (g : String) (m : Message) (r : Message),
        (node.step g m).2 = some r →
        r.src = (node.step g m).1.id ∧ r.dest = m.src) ∧
    initialNode.id = "" ∧
    (∀ (node : Node) (g : String) (m : Message),
        m.body.isInitRequest = false → (node.step g m).1.id = node.id) := by
  refine ⟨?_, rfl, ?_⟩
  · intro node g m r hr
    obtain ⟨src, dest, body⟩ := m
    cases body with
    | Init a b c => injection hr with h2; subst h2; exact ⟨rfl, rfl⟩
    | Echo a b => injection hr with h2; subst h2; exact ⟨rfl, rfl⟩
    | Generate a => injection hr with h2; subst h2; exact ⟨rfl, rfl⟩
    | Broadcast a b => injection hr with h2; subst h2; exact ⟨rfl, rfl⟩
    | Read a => injection hr with h2; subst h2; exact ⟨rfl, rfl⟩
    | Topology a b => injection hr with h2; subst h2; exact ⟨rfl, rfl⟩
    | InitOk a b => exact Option.noConfusion hr
    | EchoOk a b c => exact Option.noConfusion hr
    | GenerateOk a b c => exact Option.noConfusion hr
    | BroadcastOk a b => exact Option.noConfusion hr
    | ReadOk a b c => exact Option.noConfusion hr
    | TopologyOk a b => exact Option.noConfusion hr
  · intro node g m h
    cases m with
    | mk src dest body =>
        cases body <;>
          simp only [MessageBody.isInitRequest, Bool.true_eq_false] at h <;>
          rfl

/-- C10 witness: the Echo reply of the fresh node carries the empty-string
identity as `src` and the request's `src` as `dest`. -/
theorem reply_envelope_src_dest_witness :
    (⟨"", "c1", .EchoOk 4 4 "hi"⟩ : Message).src =
      (initialNode.step "u0" ⟨"c1", "n0", .Echo 4 "hi"⟩).1.id ∧
    (⟨"", "c1", .EchoOk 4 4 "hi"⟩ : Message).dest =
      (⟨"c1", "n0", .Echo 4 "hi"⟩ : Message).src :=
  reply_envelope_src_dest.1 initialNode "u0" ⟨"c1", "n0", .Echo 4 "hi"⟩
    ⟨"", "c1", .EchoOk 4 4 "hi"⟩ rfl

/-- A JSON value, as far as the wire schema of this program needs. -/
inductive Json where
  | str (s : String)
  | num (n : Nat)
  | arr (xs : List Json)
  | obj (fields : List (String × Json))

/-- Read a JSON number as a `u32`-modelled natural. -/
def Json.asNat : Json → Option Nat
  | .num n => some n
  | _ => none

/-- Read a JSON string. -/
def Json.asStr : Json → Option String
  | .str s => some s
  | _ => none

/-- Decode every element of a JSON array, failing if any element fails. -/
def decodeList {α : Type} (f : Json → Option α) : List Json → Option (List α)
  | [] => some []
  | x :: rest =>
      match f x, decodeList f rest with
      | some y, some ys => some (y :: ys)
      | _, _ => none

/-- Read a JSON array of strings (`Vec<String>`). -/
def Json.asStrList : Json → Option (List String)
  | .arr xs => decodeList Json.asStr xs
  | _ => none

/-- Read a JSON array of numbers (`Vec<u32>`). -/
def Json.asNatList : Json → Option (List Nat)
  | .arr xs => decodeList Json.asNat xs
  | _ => none

/-- Decode the entries of a topology object, key by key. -/
def decodeTopologyEntries :
    List (String × Json) → Option (List (String × List String))
  | [] => some []
  | (k, v) :: rest =>
      match v.asStrList, decodeTopologyEntries rest with
      | some l, some ls => some ((k, l) :: ls)
      | _, _ => none

/-- Read a JSON object as a topology map (`HashMap<String, Vec<String>>`). -/
def Json.asTopology : Json → Option (List (String × List String))
  | .obj fs => decodeTopologyEntries fs
  | _ => none

/-- The wire tag of each variant: serde's `tag = "type"` with
`rename_all = "snake_case"` applied to the Rust variant names. -/
def tagName : MessageBody → String
  | .Init _ _ _ => "init"
  | .InitOk _ _ => "init_ok"
  | .EchoOk _ _ _ => "echo_ok"
  | .Echo _ _ => "echo"
  | .Generate _ => "generate"
  | .GenerateOk _ _ _ => "generate_ok"
  | .Broadcast _ _ => "broadcast"
  | .BroadcastOk _ _ => "broadcast_ok"
  | .Read _ => "read"
  | .ReadOk _ _ _ => "read_ok"
  | .Topology _ _ => "topology"
  | .TopologyOk _ _ => "topology_ok"

/-- Serialization of a message body as derived by serde from the attributes
on the Rust enum: an internally-tagged object whose tag field is named
`type`, each field under its declared name, except that the Broadcast
payload field `msg` carries `#[serde(rename = "message")]` and is emitted
under the key `message`. -/
def encodeBody : MessageBody → List (String × Json)
  | .Init m nid nids =>
      [("type", .str "init"), ("msg_id", .num m), ("node_id", .str nid),
       ("node_ids", .arr (nids.map .str))]
  | .InitOk m irt =>
      [("type", .str "init_ok"), ("msg_id", .num m), ("in_reply_to", .num irt)]
  | .EchoOk m irt e =>
      [("type", .str "echo_ok"), ("msg_id", .num m),
       ("in_reply_to", .num irt), ("echo", .str e)]
  | .Echo m e =>
      [("type", .str "echo"), ("msg_id", .num m), ("echo", .str e)]
  | .Generate m =>
      [("type", .str "generate"), ("msg_id", .num m)]
  | .GenerateOk m irt i =>
      [("type", .str "generate_ok"), ("msg_id", .num m),
       ("in_reply_to", .num irt), ("id", .str i)]
  | .Broadcast m v =>
      [("type", .str "broadcast"), ("msg_id", .num m), ("message", .num v)]
  | .BroadcastOk m irt =>
      [("type", .str "broadcast_ok"), ("msg_id", .num m),
       ("in_reply_to", .num irt)]
  | .Read m =>
      [("type", .str "read"), ("msg_id", .num m)]
  | .ReadOk m irt ms =>
      [("type", .str "read_ok"), ("msg_id", .num m),
       ("in_reply_to", .num irt), ("messages", .arr (ms.map .num))]
  | .Topology m t =>
      [("type", .str "topology"), ("msg_id", .num m),
       ("topology", .obj (t.map (fun p => (p.1, .arr (p.2.map .str)))))]
  | .TopologyOk m irt =>
      [("type", .str "topology_ok"), ("msg_id", .num m),
       ("in_reply_to", .num irt)]

/-- Deserialization of a message body: dispatch on the `type` tag and read
each field under its wire name (`message`, not `msg`, for the Broadcast
payload). -/
def decodeBody (fields : List (String × Json)) : Option MessageBody :=
  match (List.lookup "type" fields).bind Json.asStr with
  | none => none
  | some t =>
      if t = "init" then
        match (List.lookup "msg_id" fields).bind Json.asNat,
              (List.lookup "node_id" fields).bind Json.asStr,
              (List.lookup "node_ids" fields).bind Json.asStrList with
        | some m, some nid, some nids => some (.Init m nid nids)
        | _, _, _ => none
      else if t = "init_ok" then
        match (List.lookup "msg_id" fields).bind Json.asNat,
              (List.lookup "in_reply_to" fields).bind Json.asNat with
        | some m, some irt => some (.InitOk m irt)
        | _, _ => none
      else if t = "echo_ok" then
        match (List.lookup "msg_id" fields).bind Json.asNat,
              (List.lookup "in_reply_to" fields).bind Json.asNat,
              (List.lookup "echo" fields).bind Json.asStr with
        | some m, some irt, some e => some (.EchoOk m irt e)
        | _, _, _ => none
      else if t = "echo" then
        match (List.lookup "msg_id" fields).bind Json.asNat,
              (List.lookup "echo" fields).bind Json.asStr with
        | some m, some e => some (.Echo m e)
        | _, _ => none
      else if t = "generate" then
        match (List.lookup "msg_id" fields).bind Json.asNat with
        | some m => some (.Generate m)
        | _ => none
      else if t = "generate_ok" then
        match (List.lookup "msg_id" fields).bind Json.asNat,
              (List.lookup "in_reply_to" fields).bind Json.asNat,
              (List.lookup "id" fields).bind Json.asStr with
        | some m, some irt, some i => some (.GenerateOk m irt i)
        | _, _, _ => none
      else if t = "broadcast" then
        match (List.lookup "msg_id" fields).bind Json.asNat,
              (List.lookup "message" fields).bind Json.asNat with
        | some m, some v => some (.Broadcast m v)
        | _, _ => none
      else if t = "broadcast_ok" then
        match (List.lookup "msg_id" fields).bind Json.asNat,
              (List.lookup "in_reply_to" fields).bind Json.asNat with
        | some m, some irt => some (.BroadcastOk m irt)
        | _, _ => none
      else if t = "read" then
        match (List.lookup "msg_id" fields).bind Json.asNat with
        | some m => some (.Read m)
        | _ => none
      else if t = "read_ok" then
        match (List.lookup "msg_id" fields).bind Json.asNat,
              (List.lookup "in_reply_to" fields).bind Json.asNat,
              (List.lookup "messages" fields).bind Json.asNatList with
        | some m, some irt, some ms => some (.ReadOk m irt ms)
        | _, _, _ => none
      else if t = "topology" then
        match (List.lookup "msg_id" fields).bind Json.asNat,
              (List.lookup "topology" fields).bind Json.asTopology with
        | some m, some tp => some (.Topology m tp)
        | _, _ => none
      else if t = "topology_ok" then
        match (List.lookup "msg_id" fields).bind Json.asNat,
              (List.lookup "in_reply_to" fields).bind Json.asNat with
        | some m, some irt => some (.TopologyOk m irt)
        | _, _ => none
      else none

theorem decodeList_str (xs : List String) :
    decodeList Json.asStr (xs.map Json.str) = some xs := by
  induction xs with
  | nil => rfl
  | cons x rest ih => simp [decodeList, ih, Json.asStr]

theorem decodeList_num (xs : List Nat) :
    decodeList Json.asNat (xs.map Json.num) = some xs := by
  induction xs with
  | nil => rfl
  | cons x rest ih => simp [decodeList, ih, Json.asNat]

theorem decodeTopologyEntries_encode (t : List (String × List String)) :
    decodeTopologyEntries
      (t.map (fun p => (p.1, .arr (p.2.map .str)))) = some t := by
  induction t with
  | nil => rfl
  | cons p rest ih =>
      obtain ⟨k, l⟩ := p
      simp [decodeTopologyEntries, Json.asStrList, decodeList_str, ih]

set_option maxHeartbeats 1600000

/-- C9: on the wire the tag field is named `type` and carries the lower-case
snake_case variant name; the Broadcast payload field (internally `msg`) is
encoded under the exact key `message`, and the internal name `msg` never
appears as a key of any encoded body; every other field appears under its
semantic name — witnessed by the decoder, which reads back exactly those
keys and inverts the encoder on every body. -/
theorem wire_format_spec :
    (∀ b, List.lookup "type" (encodeBody b) = some (.str (tagName b))) ∧
    (∀ m v, encodeBody (.Broadcast m v) =
      [("type", .str "broadcast"), ("msg_id", .num m),
       ("message", .num v)]) ∧
    (∀ b, List.lookup "msg" (encodeBody b) = none) ∧
    (∀ b, decodeBody (encodeBody b) = some b) := by
  refine ⟨?_, ?_, ?_, ?_⟩
  · intro b; cases b <;> rfl
  · intro m v; rfl
  · intro b; cases b <;> rfl
  · intro b
    cases b with
    | Init m nid nids =>
        simp [decodeBody, encodeBody, List.lookup, Json.asStr, Json.asNat,
          Json.asStrList, decodeList_str]
    | ReadOk m irt ms =>
        simp [decodeBody, encodeBody, List.lookup, Json.asStr, Json.asNat,
          Json.asNatList, decodeList_num]
    | Topology m t =>
        simp [decodeBody, encodeBody, List.lookup, Json.asStr, Json.asNat,
          Json.asTopology, decodeTopologyEntries_encode]
    | InitOk m irt => rfl
    | EchoOk m irt e => rfl
    | Echo m e => rfl
    | Generate m => rfl
    | GenerateOk m irt i => rfl
    | Broadcast m v => rfl
    | BroadcastOk m irt => rfl
    | Read m => rfl
    | TopologyOk m irt => rfl
